import Mathlib

set_option maxHeartbeats 1000000

namespace OseModel

/-! Shallow embedding of two modules of the OSE repository:
`src/unnamed/part_000` (the slave shard client socket, class
`ose.lib.shard.slave`) and `src/lib/peer/rx.js` (the peer RX handlers).
Stateful JavaScript is embedded as explicit state passing; every handler
returns the list of its observable actions in program order, and a thrown
JavaScript error is an `Except.error` result. -/

/-- Error codes appearing in the embedded modules (codes given to
`Ose.error`), plus `typeError` standing for the JavaScript `TypeError`
thrown when a property of `undefined` is read. -/
inductive ErrCode
  | DISCONNECTED
  | CLOSED
  | duplicitMaster
  | invalidSynced
  | UNEXPECTED
  | MISSING_LINK
  | MISSING_HANDLER
  | FORBIDDEN_HANDLER
  | RX_ERROR
  | typeError
  deriving DecidableEq, Repr

/-- JavaScript values, as far as the embedded handlers inspect them:
the `synced` handler tests `typeof data === 'boolean'`. -/
inductive JsVal
  | bool (b : Bool)
  | num (n : Int)
  | str (s : String)
  | undef
  | null
  | obj
  deriving DecidableEq, Repr

/-- Whether a JavaScript value has `typeof === 'boolean'`. -/
def JsVal.isBool : JsVal → Bool
  | .bool _ => true
  | _ => false

/-- A cache entry of a shard, as inspected by the slave socket's `open`
handler: only the truthiness of `entry.slaves` matters there. -/
structure Entry where
  slaves : Bool
  deriving DecidableEq, Repr

/-- The state touched by the slave socket handlers: the shard's `master`
reference (holding the id of the socket recorded there, or nothing), the
socket's `shard` back reference, and the answer the shard's `check2Link()`
method reports. -/
structure SlaveState where
  shardMaster : Option Nat
  socketShard : Bool
  check2Link : Bool
  deriving DecidableEq, Repr

/-- Observable actions of the slave socket code, in program order. -/
inductive SEffect
  | recordMaster (id : Nat)
  | setShardRef
  | onceDone
  | callConnect
  | linkPrepare
  | addLink
  | txShard
  | onceConnected
  | setSynced (b : Bool)
  | linkMaster (key : String)
  | linkError (code : ErrCode)
  | emitDone (err : Option ErrCode)
  | scheduleRetry (ms : Nat)
  deriving DecidableEq, Repr

/-- Embeds the private `connect(that)` of the slave socket. The peer's
`isConnected()` answer is passed in as `connected`. When connected, the
socket is prepared (`Ose.link.prepare`), registered in the link table
(`addLink`) and a `shard` frame is transmitted; when disconnected, the
socket emits `done` with a `DISCONNECTED` error and subscribes one
one-shot handler to the peer's `connected` event. The state is unchanged
either way. -/
def connect (connected : Bool) (st : SlaveState) : List SEffect × SlaveState :=
  if connected then
    ([.linkPrepare, .addLink, .txShard], st)
  else
    ([.emitDone (some .DISCONNECTED), .onceConnected], st)

/-- Embeds the constructor `C(shard, peer, cb)`: throws `duplicitMaster`
when the shard already has a `master`; otherwise records the socket
(`newId`) as `shard.master`, sets `this.shard`, registers `cb` on `done`
when given, and finally calls `connect`. -/
def construct (st : SlaveState) (newId : Nat) (hasCb : Bool) (connected : Bool) :
    List SEffect × Except ErrCode SlaveState :=
  if st.shardMaster.isSome then
    ([], .error .duplicitMaster)
  else
    let st1 : SlaveState := { st with shardMaster := some newId, socketShard := true }
    let r := connect connected st1
    (SEffect.recordMaster newId :: SEffect.setShardRef ::
       ((if hasCb then [SEffect.onceDone] else []) ++ SEffect.callConnect :: r.1),
     .ok r.2)

/-- Embeds the private `close(that, err)` teardown of the slave socket.
`err` is the argument the caller passes: the `close` handler passes none
(JavaScript `undefined`), the `error` handler passes the received error.
When `that.shard` is gone an `UNEXPECTED` error is thrown. Otherwise
`setSynced(false)` runs; if `check2Link()` reports true the code reads
`err.code` — a `TypeError` when `err` is `undefined` — and on
`DISCONNECTED` schedules a reconnect after 1000 ms, keeping all
references; any other code keeps the references too. If `check2Link()`
reports false, `shard.master` and `that.shard` are deleted. -/
def closeTeardown (st : SlaveState) (err : Option ErrCode) :
    List SEffect × Except ErrCode SlaveState :=
  if st.socketShard then
    if st.check2Link then
      match err with
      | none => ([SEffect.setSynced false], .error .typeError)
      | some e =>
        if e = .DISCONNECTED then
          ([SEffect.setSynced false, SEffect.scheduleRetry 1000], .ok st)
        else
          ([SEffect.setSynced false], .ok st)
    else
      ([SEffect.setSynced false],
       .ok { st with shardMaster := none, socketShard := false })
  else
    ([], .error .UNEXPECTED)

/-- Embeds `exports.close` of the slave socket: runs the teardown with no
error argument, then emits `done` with a `CLOSED` error. -/
def closeHandler (st : SlaveState) : List SEffect × Except ErrCode SlaveState :=
  match closeTeardown st none with
  | (effs, .ok st1) => (effs ++ [SEffect.emitDone (some .CLOSED)], .ok st1)
  | (effs, .error e) => (effs, .error e)

/-- Embeds `exports.error(err)` of the slave socket: runs the teardown
with the received error, then emits `done` with that error. -/
def errorHandler (st : SlaveState) (err : ErrCode) :
    List SEffect × Except ErrCode SlaveState :=
  match closeTeardown st (some err) with
  | (effs, .ok st1) => (effs ++ [SEffect.emitDone (some err)], .ok st1)
  | (effs, .error e) => (effs, .error e)

/-- Embeds `exports.synced(data)` of the slave socket: a boolean payload
is applied through `shard.setSynced`; anything else is reported as an
`invalidSynced` error through `Ose.link.error`. -/
def syncedHandler (v : JsVal) : List SEffect :=
  match v with
  | .bool b => [SEffect.setSynced b]
  | _ => [SEffect.linkError .invalidSynced]

/-- Embeds the for-in loop of the slave socket's `open` handler over the
shard's cache: entries whose `slaves` field is set get `linkMaster()`
called, the rest are skipped. -/
def walkCache : List (String × Entry) → List SEffect
  | [] => []
  | (k, e) :: rest => (if e.slaves then [SEffect.linkMaster k] else []) ++ walkCache rest

/-- Embeds `exports.open(data)` of the slave socket: walks the cache,
calls `this.synced(data.synced)` (the `synced` handler), and emits `done`
with a null error. -/
def openHandler (cache : List (String × Entry)) (dataSynced : JsVal) : List SEffect :=
  walkCache cache ++ syncedHandler dataSynced ++ [SEffect.emitDone none]

/-- Lowercase base-16 rendering of a natural number, as JavaScript's
`Number.prototype.toString(16)` renders a nonnegative integer; `getLink`
keys the connection's link table with it. -/
def toHex (n : Nat) : String := String.mk (Nat.toDigits 16 n)

/-- A registered socket as inspected by the RX dispatchers:
whether `socket.link === 'relay'`, whether `socket.ws` is truthy
(a pass-through relay link), and which member names hold functions. -/
structure RxSocket where
  linkIsRelay : Bool
  hasWs : Bool
  methods : List String
  deriving DecidableEq, Repr

/-- An inbound request frame, with the fields the dispatchers read.
`lid` is none when the frame carries no link id (`undefined`). -/
structure Req where
  lid : Option Nat
  type : String
  name : String
  newLid : Option Nat
  deriving DecidableEq, Repr

/-- Observable actions of the RX dispatchers, in program order. -/
inductive RxEffect
  | logError (code : ErrCode)
  | txError (lid : Nat) (code : ErrCode)
  | txForward
  | newWsRelay
  | newWsSlave
  | newWsMaster (lid : Nat)
  | linkError (code : ErrCode)
  | invoke (name : String)
  deriving DecidableEq, Repr

/-- Embeds the private `getLink(ws, req)` of rx.js. A falsy `req.lid`
(absent or the number 0) is logged as `MISSING_LINK` and the request is
dropped. Otherwise the socket is looked up under the hexadecimal string
of the lid; when missing, a `MISSING_LINK` error frame is transmitted
back — unless the request's own type is `error`, which is only logged. -/
def getLink (links : List (String × RxSocket)) (req : Req) :
    Option RxSocket × List RxEffect :=
  match req.lid with
  | none => (none, [RxEffect.logError .MISSING_LINK])
  | some lid =>
    if lid = 0 then
      (none, [RxEffect.logError .MISSING_LINK])
    else
      match List.lookup (toHex lid) links with
      | some s => (some s, [])
      | none =>
        if req.type = "error" then
          (none, [RxEffect.logError .MISSING_LINK])
        else
          (none, [RxEffect.txError lid .MISSING_LINK])

/-- Embeds the private `error(ws, err, data)` helper of rx.js: builds the
error object, transmits it with `ws.txError(data.lid, err)` when
`data.lid` is truthy, and logs it. `dataLid` is the `lid` property of the
`data` argument — none when `data` is a value without one, such as the
string `"open"`. -/
def errHelper (code : ErrCode) (dataLid : Option Nat) : List RxEffect :=
  (match dataLid with
   | some l => if l = 0 then [] else [RxEffect.txError l code]
   | none => []) ++ [RxEffect.logError code]

/-- Embeds `exports.open(ws, req)` of rx.js: resolves the link; a relay
socket gets a WsRelay; a socket with no `open` function triggers the call
`error(socket, 'MISSING_HANDLER', 'open')` — whose `data` argument is the
string `"open"`, carrying no `lid` property; otherwise a WsSlave is
built. -/
def openDispatch (links : List (String × RxSocket)) (req : Req) : List RxEffect :=
  match getLink links req with
  | (none, effs) => effs
  | (some socket, effs) =>
    effs ++
    (if socket.linkIsRelay then [RxEffect.newWsRelay]
     else if "open" ∉ socket.methods then errHelper .MISSING_HANDLER none
     else [RxEffect.newWsSlave])

/-- Embeds `exports.command(ws, req)` of rx.js; `forbidden` is the
external list `Ose.link.forbiddenNames`. A socket with a truthy `ws`
field forwards the frame; a forbidden name or a name with no matching
function is reported through `Ose.link.error`; otherwise the named method
is invoked, after building a WsMaster when `req.newLid` is truthy. -/
def commandDispatch (forbidden : List String) (links : List (String × RxSocket))
    (req : Req) : List RxEffect :=
  match getLink links req with
  | (none, effs) => effs
  | (some socket, effs) =>
    effs ++
    (if socket.hasWs then [RxEffect.txForward]
     else if req.name ∈ forbidden then [RxEffect.linkError .FORBIDDEN_HANDLER]
     else if req.name ∉ socket.methods then [RxEffect.linkError .MISSING_HANDLER]
     else
       (match req.newLid with
        | some l => if l = 0 then [] else [RxEffect.newWsMaster l]
        | none => []) ++ [RxEffect.invoke req.name])

/-- C1: failing input for the claim. A `close` event delivered while the
shard's `check2Link()` reports true never reaches the `DISCONNECTED`
retry branch: the close handler invokes the teardown with no error, the
teardown reads `err.code` of an undefined `err`, and a TypeError is
thrown right after `setSynced(false)` — no 1000 ms reconnect timer is
ever scheduled from a `close` event. -/
theorem c1_close_with_check2Link_throws :
    closeHandler { shardMaster := some 1, socketShard := true, check2Link := true }
      = ([SEffect.setSynced false], .error .typeError) := rfl

/-- C2: constructing a slave socket for a shard whose `master` is already
set throws a `duplicitMaster` error; a successful construction leaves the
new socket recorded as `shard.master`, and in its action trace the
recording comes first, before the `connect` call. -/
theorem c2_at_most_one_master (st : SlaveState) (newId : Nat) (hasCb connected : Bool) :
    (st.shardMaster.isSome →
        construct st newId hasCb connected = ([], .error .duplicitMaster))
    ∧ (st.shardMaster = none →
        (construct st newId hasCb connected).2
            = .ok { st with shardMaster := some newId, socketShard := true }
          ∧ (construct st newId hasCb connected).1.head?
              = some (SEffect.recordMaster newId)
          ∧ SEffect.callConnect ∈ (construct st newId hasCb connected).1) := by
  constructor
  · intro h
    simp [construct, h]
  · intro h
    cases connected <;> cases hasCb <;> simp [construct, connect, h]

/-- C2 witness: the theorem applied at concrete inputs — a shard with a
master already set rejects a second construction, and one without records
the new socket. -/
theorem c2_witness :
    construct ⟨some 0, true, false⟩ 5 true true = ([], .error .duplicitMaster)
    ∧ (construct ⟨none, false, false⟩ 5 true true).2 = .ok ⟨some 5, true, false⟩ :=
  ⟨(c2_at_most_one_master ⟨some 0, true, false⟩ 5 true true).1 (by decide),
   ((c2_at_most_one_master ⟨none, false, false⟩ 5 true true).2 rfl).1⟩

/-- C5: for both the `close` and the `error` teardown of a slave socket
whose shard's `check2Link()` reports false, the returned state has the
shard's `master` reference and the socket's `shard` reference deleted,
and no reconnect timer appears in the action trace. -/
theorem c5_dismantle_when_no_links (st : SlaveState) (err : ErrCode)
    (h1 : st.socketShard = true) (h2 : st.check2Link = false) :
    ((closeHandler st).2 = .ok { st with shardMaster := none, socketShard := false }
      ∧ ∀ ms, SEffect.scheduleRetry ms ∉ (closeHandler st).1)
    ∧ ((errorHandler st err).2 = .ok { st with shardMaster := none, socketShard := false }
      ∧ ∀ ms, SEffect.scheduleRetry ms ∉ (errorHandler st err).1) := by
  simp [closeHandler, errorHandler, closeTeardown, h1, h2]

/-- C5 witness: the theorem applied at a concrete state with
`check2Link()` false: both teardowns clear the references. -/
theorem c5_witness :
    (closeHandler ⟨some 1, true, false⟩).2 = .ok ⟨none, false, false⟩
    ∧ (errorHandler ⟨some 1, true, false⟩ .DISCONNECTED).2 = .ok ⟨none, false, false⟩ :=
  ⟨((c5_dismantle_when_no_links ⟨some 1, true, false⟩ .DISCONNECTED rfl rfl).1).1,
   ((c5_dismantle_when_no_links ⟨some 1, true, false⟩ .DISCONNECTED rfl rfl).2).1⟩

/-- C6: a connect attempt while the peer is disconnected emits exactly
the `done` notification with a `DISCONNECTED` error followed by one
one-shot subscription to the peer's `connected` event — no link
registration, no preparation, no frame transmission — and leaves the
state unchanged. -/
theorem c6_connect_disconnected (st : SlaveState) :
    connect false st
        = ([SEffect.emitDone (some .DISCONNECTED), SEffect.onceConnected], st)
    ∧ SEffect.addLink ∉ (connect false st).1
    ∧ SEffect.txShard ∉ (connect false st).1
    ∧ SEffect.linkPrepare ∉ (connect false st).1
    ∧ List.count SEffect.onceConnected (connect false st).1 = 1 := by
  refine ⟨rfl, ?_, ?_, ?_, rfl⟩ <;> simp [connect]

/-- C8: the `synced` handler applies a boolean payload through
`shard.setSynced` and reports any non-boolean payload as an
`invalidSynced` error through the link-error path, never calling
`setSynced` on it. -/
theorem c8_synced_boolean_only (v : JsVal) :
    (∀ b, v = .bool b → syncedHandler v = [SEffect.setSynced b])
    ∧ (v.isBool = false →
        syncedHandler v = [SEffect.linkError .invalidSynced]
        ∧ ∀ b, SEffect.setSynced b ∉ syncedHandler v) := by
  constructor
  · rintro b rfl
    rfl
  · intro h
    cases v <;> simp_all [syncedHandler, JsVal.isBool]

/-- C8 witness: the theorem applied at a boolean and at a non-boolean
payload. -/
theorem c8_witness :
    syncedHandler (.bool true) = [SEffect.setSynced true]
    ∧ syncedHandler .obj = [SEffect.linkError .invalidSynced] :=
  ⟨(c8_synced_boolean_only (.bool true)).1 true rfl,
   ((c8_synced_boolean_only .obj).2 rfl).1⟩

/-- C3: link-id resolution. A request lacking a link id is logged as
`MISSING_LINK` and dropped with no reply; a request whose nonzero link id
has no registered socket in the link table is answered with a
`MISSING_LINK` error frame transmitted back — unless the request's own
type is `error`, in which case it is only logged and nothing is sent. -/
theorem c3_getLink_resolution (links : List (String × RxSocket)) (req : Req) :
    (req.lid = none → getLink links req = (none, [RxEffect.logError .MISSING_LINK]))
    ∧ (∀ lid, req.lid = some lid → lid ≠ 0 →
        List.lookup (toHex lid) links = none → req.type ≠ "error" →
        getLink links req = (none, [RxEffect.txError lid .MISSING_LINK]))
    ∧ (∀ lid, req.lid = some lid → lid ≠ 0 →
        List.lookup (toHex lid) links = none → req.type = "error" →
        getLink links req = (none, [RxEffect.logError .MISSING_LINK])) := by
  refine ⟨?_, ?_, ?_⟩
  · intro h
    simp [getLink, h]
  · intro lid h h0 hl ht
    simp [getLink, h, h0, hl, ht]
  · intro lid h h0 hl ht
    simp [getLink, h, h0, hl, ht]

/-- C3 witness: the theorem applied at three concrete requests — one with
no link id, one unregistered of type `command`, one unregistered of type
`error`. -/
theorem c3_witness :
    getLink [] ⟨none, "open", "", none⟩ = (none, [RxEffect.logError .MISSING_LINK])
    ∧ getLink [] ⟨some 2, "open", "", none⟩ = (none, [RxEffect.txError 2 .MISSING_LINK])
    ∧ getLink [] ⟨some 2, "error", "", none⟩ = (none, [RxEffect.logError .MISSING_LINK]) :=
  ⟨(c3_getLink_resolution [] ⟨none, "open", "", none⟩).1 rfl,
   (c3_getLink_resolution [] ⟨some 2, "open", "", none⟩).2.1 2 rfl (by decide) rfl
     (by decide),
   (c3_getLink_resolution [] ⟨some 2, "error", "", none⟩).2.2 2 rfl (by decide) rfl rfl⟩

/-- C10: a frame whose `lid` equals the number 0 fails the truthiness
test `! req.lid`: for every link table it is logged as `MISSING_LINK`
and dropped with no reply frame and no socket lookup (the result does not
depend on the table at all). -/
theorem c10_lid_zero_dropped (links : List (String × RxSocket)) (t n : String)
    (newLid : Option Nat) :
    getLink links { lid := some 0, type := t, name := n, newLid := newLid }
      = (none, [RxEffect.logError .MISSING_LINK]) := by
  simp [getLink]

/-- In the cache walk of the slave socket's open handler, `linkMaster`
fires for key `k` exactly when the cache holds an entry under `k` whose
`slaves` field is set. -/
theorem linkMaster_mem_walkCache (cache : List (String × Entry)) (k : String) :
    SEffect.linkMaster k ∈ walkCache cache
      ↔ ∃ e, (k, e) ∈ cache ∧ e.slaves = true := by
  induction cache with
  | nil => simp [walkCache]
  | cons kv rest ih =>
    obtain ⟨k0, e0⟩ := kv
    by_cases h : e0.slaves = true
    · have hw : walkCache ((k0, e0) :: rest)
          = SEffect.linkMaster k0 :: walkCache rest := by simp [walkCache, h]
      rw [hw]
      constructor
      · intro hmem
        rcases List.mem_cons.mp hmem with heq | hrest
        · injection heq with hk
          subst hk
          exact ⟨e0, List.mem_cons_self _ _, h⟩
        · obtain ⟨e, he, hs⟩ := ih.mp hrest
          exact ⟨e, List.mem_cons_of_mem _ he, hs⟩
      · rintro ⟨e, he, hs⟩
        rcases List.mem_cons.mp he with heq | hrest
        · injection heq with hk he2
          subst hk
          exact List.mem_cons_self _ _
        · exact List.mem_cons_of_mem _ (ih.mpr ⟨e, hrest, hs⟩)
    · have hw : walkCache ((k0, e0) :: rest) = walkCache rest := by
        simp [walkCache, h]
      rw [hw, ih]
      constructor
      · rintro ⟨e, he, hs⟩
        exact ⟨e, List.mem_cons_of_mem _ he, hs⟩
      · rintro ⟨e, he, hs⟩
        rcases List.mem_cons.mp he with heq | hrest
        · injection heq with hk he2
          subst he2
          exact absurd hs h
        · exact ⟨e, hrest, hs⟩

/-- C4: the open handler of the slave socket calls `linkMaster` exactly
on the cache entries that have dependents, propagates the boolean
`data.synced` to the shard through `setSynced`, and ends by emitting the
`done` notification with a null error. -/
theorem c4_open_resync (cache : List (String × Entry)) (b : Bool) :
    (∀ k, SEffect.linkMaster k ∈ openHandler cache (.bool b)
        ↔ ∃ e, (k, e) ∈ cache ∧ e.slaves = true)
    ∧ SEffect.setSynced b ∈ openHandler cache (.bool b)
    ∧ ∃ pre, openHandler cache (.bool b) = pre ++ [SEffect.emitDone none] := by
  refine ⟨?_, ?_, ?_⟩
  · intro k
    rw [← linkMaster_mem_walkCache cache k]
    simp [openHandler, syncedHandler]
  · simp [openHandler, syncedHandler]
  · exact ⟨walkCache cache ++ [SEffect.setSynced b], by simp [openHandler, syncedHandler]⟩

/-- C7: dispatch of a command frame to a registered non-pass-through
socket rejects a forbidden handler name with `FORBIDDEN_HANDLER` and an
unknown method name with `MISSING_HANDLER`, delivered through the link
error path, and invokes no method in either case. -/
theorem c7_command_guards (forbidden : List String)
    (links : List (String × RxSocket)) (req : Req) (lid : Nat) (s : RxSocket)
    (hlid : req.lid = some lid) (h0 : lid ≠ 0)
    (hs : List.lookup (toHex lid) links = some s) (hws : s.hasWs = false) :
    (req.name ∈ forbidden →
        commandDispatch forbidden links req = [RxEffect.linkError .FORBIDDEN_HANDLER])
    ∧ (req.name ∉ forbidden → req.name ∉ s.methods →
        commandDispatch forbidden links req = [RxEffect.linkError .MISSING_HANDLER])
    ∧ (req.name ∉ s.methods →
        ∀ m, RxEffect.invoke m ∉ commandDispatch forbidden links req) := by
  refine ⟨?_, ?_, ?_⟩
  · intro hf
    simp [commandDispatch, getLink, hlid, h0, hs, hws, hf]
  · intro hf hm
    simp [commandDispatch, getLink, hlid, h0, hs, hws, hf, hm]
  · intro hm m
    by_cases hf : req.name ∈ forbidden <;>
      simp [commandDispatch, getLink, hlid, h0, hs, hws, hf, hm]

/-- C7 witness: the theorem applied at a concrete link table with a
registered non-pass-through socket, once with a forbidden name and once
with an unknown name. -/
theorem c7_witness :
    commandDispatch ["close"] [(toHex 3, ⟨false, false, ["go"]⟩)]
        ⟨some 3, "command", "close", none⟩ = [RxEffect.linkError .FORBIDDEN_HANDLER]
    ∧ commandDispatch ["close"] [(toHex 3, ⟨false, false, ["go"]⟩)]
        ⟨some 3, "command", "stop", none⟩ = [RxEffect.linkError .MISSING_HANDLER] :=
  ⟨(c7_command_guards ["close"] [(toHex 3, ⟨false, false, ["go"]⟩)]
      ⟨some 3, "command", "close", none⟩ 3 ⟨false, false, ["go"]⟩
      rfl (by decide) rfl rfl).1 (by decide),
   ((c7_command_guards ["close"] [(toHex 3, ⟨false, false, ["go"]⟩)]
      ⟨some 3, "command", "stop", none⟩ 3 ⟨false, false, ["go"]⟩
      rfl (by decide) rfl rfl).2.1 (by decide) (by decide))⟩

/-- C9: failing input for the claim. An open frame for a registered
non-relay socket exposing no `open` function is dispatched to the call
`error(socket, 'MISSING_HANDLER', 'open')`, whose `data` argument is the
string `"open"` with no `lid` property — so the dispatcher only logs the
`MISSING_HANDLER` error and transmits no error frame back. -/
theorem c9_missing_open_handler_only_logged :
    openDispatch [(toHex 5, ⟨false, false, []⟩)] ⟨some 5, "open", "", none⟩
        = [RxEffect.logError .MISSING_HANDLER]
    ∧ ∀ l c, RxEffect.txError l c
        ∉ openDispatch [(toHex 5, ⟨false, false, []⟩)] ⟨some 5, "open", "", none⟩ := by
  have h : openDispatch [(toHex 5, ⟨false, false, []⟩)] ⟨some 5, "open", "", none⟩
      = [RxEffect.logError .MISSING_HANDLER] := rfl
  exact ⟨h, by simp [h]⟩

end OseModel
